import Mathlib

/-!
Verification development for the shieldbot DM-relay repository
(src/main.py, src/std_bot.py, src/user_bot.py).

The development shallowly embeds the content codec (`extract_content`,
`build_reply_markup`, the per-kind send dispatch), the config store
(`get_config` / `set_config`), the DM listeners, and the job state
machine driven by the two relay processes, and proves or refutes the
frozen specification claims against these embeddings.

Conventions:
* Python optional strings become `Option String`; Python truthiness of a
  string value (`if s:` is false for `None` and `""`) is `truthy`.
* Mongo documents become structures; a key that may be absent becomes an
  `Option` field (`none` = key absent).
* Timestamps (`created_at` / `updated_at`) are refreshed on every store
  write in the source; no claim depends on their values, so they are
  omitted from the job records.
-/

/-- Status constants shared by all three source files. -/
def STATUS_NEW_DM : String := "NEW_DM"

def STATUS_PENDING_REPLY : String := "PENDING_REPLY"

def STATUS_READY_TO_SEND : String := "READY_TO_SEND"

def STATUS_COMPLETED : String := "COMPLETED"

def STATUS_ERROR : String := "ERROR"

def STATUS_SENDING : String := "SENDING"

def TYPE_DM_FLOW : String := "DM_FLOW"

def TYPE_MANUAL_SEND : String := "MANUAL_SEND"

/-- Python truthiness of an optional string: `None` and `""` are falsy. -/
def truthy : Option String → Bool
  | none => false
  | some s => !s.isEmpty

/-- Python `a or b` on two optional strings: `b` when `a` is falsy. -/
def pyOr (a b : Option String) : Option String :=
  if truthy a then a else b

/-- Python `a or d` against a string literal default `d`
(as in `text or "(no text)"`). -/
def orDefault (a : Option String) (d : String) : String :=
  match a with
  | none => d
  | some s => if s.isEmpty then d else s

/-- An inline keyboard button. The same shape serves as the protocol
button (pyrogram `InlineKeyboardButton`, unset fields `None`) and as the
dict the encoder stores, since `extract_content` copies the five fields
verbatim (`getattr(b, ..., None)`). -/
structure Btn where
  btnText : String
  url : Option String
  callback_data : Option String
  switch_inline_query : Option String
  switch_inline_query_current_chat : Option String
deriving DecidableEq, Repr

/-- A pyrogram message as the three source files consume it: body,
caption, inline keyboard, one optional `file_id` per attachment type,
plus the envelope fields the DM listeners read. -/
structure Msg where
  msgText : Option String := none
  caption : Option String := none
  reply_markup : Option (List (List Btn)) := none
  photo : Option String := none
  video : Option String := none
  document : Option String := none
  sticker : Option String := none
  animation : Option String := none
  audio : Option String := none
  voice : Option String := none
  video_note : Option String := none
deriving DecidableEq, Repr

/-- The normalized content payload stored in `content_in` /
`content_out`. `none` on `text`, `buttons`, `file_id` means the key is
absent from the dict. -/
structure Payload where
  text : Option String
  buttons : Option (List (List Btn))
  kind : String
  file_id : Option String
deriving DecidableEq, Repr

/-- `extract_content` (identical in main.py:96-132, std_bot.py:94-130,
user_bot.py:67-103): sets `text` from body-or-caption when truthy,
copies the button rows verbatim when a reply markup is present, then
probes the attachments in the fixed order photo, video, document,
sticker, animation, audio, voice, video_note; the first present
attachment sets `kind` and `file_id`, otherwise `kind = "text"`. -/
def extract_content (m : Msg) : Payload :=
  let t := pyOr m.msgText m.caption
  let kf : String × Option String :=
    if m.photo.isSome then ("photo", m.photo)
    else if m.video.isSome then ("video", m.video)
    else if m.document.isSome then ("document", m.document)
    else if m.sticker.isSome then ("sticker", m.sticker)
    else if m.animation.isSome then ("animation", m.animation)
    else if m.audio.isSome then ("audio", m.audio)
    else if m.voice.isSome then ("voice", m.voice)
    else if m.video_note.isSome then ("video_note", m.video_note)
    else ("text", none)
  { text := if truthy t then t else none
    buttons := m.reply_markup
    kind := kf.1
    file_id := kf.2 }

/-- One button of `build_reply_markup`: the first truthy action field
wins and the others are dropped; a button with no truthy action becomes
a placeholder with `callback_data = "noop"`. -/
def rebuildBtn (b : Btn) : Btn :=
  if truthy b.url then
    { btnText := b.btnText, url := b.url, callback_data := none,
      switch_inline_query := none, switch_inline_query_current_chat := none }
  else if truthy b.callback_data then
    { btnText := b.btnText, url := none, callback_data := b.callback_data,
      switch_inline_query := none, switch_inline_query_current_chat := none }
  else if truthy b.switch_inline_query then
    { btnText := b.btnText, url := none, callback_data := none,
      switch_inline_query := b.switch_inline_query,
      switch_inline_query_current_chat := none }
  else if truthy b.switch_inline_query_current_chat then
    { btnText := b.btnText, url := none, callback_data := none,
      switch_inline_query := none,
      switch_inline_query_current_chat := b.switch_inline_query_current_chat }
  else
    { btnText := b.btnText, url := none, callback_data := some "noop",
      switch_inline_query := none, switch_inline_query_current_chat := none }

/-- `build_reply_markup` (main.py:134-152 and twins): `None` for an
absent or empty row list (`if not button_rows: return None`), else the
rows rebuilt button by button. -/
def build_reply_markup (rows? : Option (List (List Btn))) :
    Option (List (List Btn)) :=
  match rows? with
  | none => none
  | some rows =>
      if rows.isEmpty then none
      else some (rows.map (fun row => row.map rebuildBtn))

/-- The protected-send dispatch of the delivery loop (user_bot.py
`process_jobs` 244-263, identical in main.py `user_background` 431-450),
modelled as the message the collaborator delivers for the given payload:
each send call's parameters become the corresponding message fields.
Note that the `sticker` and `video_note` branches pass neither a caption
nor `reply_markup`, and the unknown-kind branch falls back to a text
send with a placeholder. The dispatch never fails: it is a total
function on payloads. -/
def sendProtected (content : Payload) : Msg :=
  let text := content.text
  let fid := content.file_id
  let markup := build_reply_markup content.buttons
  if content.kind = "text" then
    { msgText := some (orDefault text "(no text)"), reply_markup := markup }
  else if content.kind = "photo" then
    { photo := fid, caption := text, reply_markup := markup }
  else if content.kind = "video" then
    { video := fid, caption := text, reply_markup := markup }
  else if content.kind = "document" then
    { document := fid, caption := text, reply_markup := markup }
  else if content.kind = "sticker" then
    { sticker := fid }
  else if content.kind = "animation" then
    { animation := fid, caption := text, reply_markup := markup }
  else if content.kind = "audio" then
    { audio := fid, caption := text, reply_markup := markup }
  else if content.kind = "voice" then
    { voice := fid, caption := text, reply_markup := markup }
  else if content.kind = "video_note" then
    { video_note := fid }
  else
    { msgText := some (orDefault text "(unsupported kind treated as text)"),
      reply_markup := markup }

/-- Encode, deliver, re-encode: the codec round trip of spec property P2. -/
def roundTrip (m : Msg) : Payload :=
  extract_content (sendProtected (extract_content m))

/-! ## Config store (main.py:76-94, std_bot.py:75-92, user_bot.py:59-65) -/

/-- A config value: the system stores chat ids (ints) and session
strings. -/
inductive CVal where
  | intV (n : Int)
  | strV (s : String)
deriving DecidableEq, Repr

/-- Python truthiness of a config value (`if not group_id:`). -/
def cvalTruthy : CVal → Bool
  | .intV n => n ≠ 0
  | .strV s => !s.isEmpty

/-- A document of the `config` collection. `value = none` models a
document missing the `"value"` key (the `"value" in doc` check). -/
structure ConfigDoc where
  key : String
  value : Option CVal
deriving DecidableEq, Repr

/-- The `config` collection plus the reachability of the store: when
`failing` is true, every round trip raises `PyMongoError`. -/
structure ConfigStore where
  docs : List ConfigDoc
  failing : Bool
deriving DecidableEq, Repr

/-- `CONFIG.find_one({"key": key})` as the source issues it: an
exception when the store is unreachable, else the first document whose
key matches. -/
def configFindOne (s : ConfigStore) (key : String) :
    Except Unit (Option ConfigDoc) :=
  if s.failing then .error () else .ok (s.docs.find? (fun d => d.key = key))

/-- `get_config(key, default)`: `doc["value"] if doc and "value" in doc
else default`, with any `PyMongoError` caught, logged and degraded to
`default`. Total by construction: no failure propagates. -/
def get_config (s : ConfigStore) (key : String) (default : Option CVal) :
    Option CVal :=
  match configFindOne s key with
  | .error _ => default
  | .ok none => default
  | .ok (some doc) =>
      match doc.value with
      | some v => some v
      | none => default

/-- `set_config(key, value)`: an upsert of `{key, value, updated_at}`;
a `PyMongoError` is caught and the store is left unchanged. -/
def set_config (s : ConfigStore) (key : String) (v : CVal) : ConfigStore :=
  if s.failing then s
  else
    { s with
      docs :=
        if (s.docs.find? (fun d => d.key = key)).isSome then
          s.docs.map (fun d => if d.key = key then ⟨key, some v⟩ else d)
        else s.docs ++ [⟨key, some v⟩] }

/-! ## Job documents and the DM listeners -/

/-- The author of an inbound message (`message.from_user`). -/
structure User where
  uid : Int
  is_bot : Bool
  is_self : Bool
deriving DecidableEq, Repr

/-- The envelope of an inbound protocol event: the message content plus
the fields the handler filters and the listener body read. -/
structure Inbound where
  content : Msg
  from_user : Option User
  chat_id : Int
  message_id : Nat
  isPrivate : Bool
  isIncoming : Bool
deriving DecidableEq, Repr

/-- `filters.me`: the message's author is the client identity itself. -/
def fromMe (i : Inbound) : Bool :=
  match i.from_user with
  | none => false
  | some u => u.is_self

/-- The handler registration filter of both DM listeners:
`filters.private & filters.incoming & ~filters.me`. -/
def dmFilter (i : Inbound) : Bool :=
  i.isPrivate && i.isIncoming && !(fromMe i)

/-- A document of the `jobs` collection, as inserted and updated by the
handlers (timestamps omitted, see the header). -/
structure JobDoc where
  jtype : String
  status : String
  sender_id : Int
  target_chat_id : Int
  dm_message_id : Option Nat
  group_topic_id : Option Nat
  group_message_id : Option Nat
  content_in : Option Payload
  content_out : Option Payload
  error : Option String
deriving DecidableEq, Repr

/-- The job document `dm_listener` inserts for an accepted DM. -/
def dmJobDoc (i : Inbound) (u : User) : JobDoc :=
  { jtype := TYPE_DM_FLOW
    status := STATUS_NEW_DM
    sender_id := u.uid
    target_chat_id := i.chat_id
    dm_message_id := some i.message_id
    group_topic_id := none
    group_message_id := none
    content_in := some (extract_content i.content)
    content_out := none
    error := none }

/-- `dm_listener` of main.py (391-410): under the registration filter,
reject when there is no author or the author is flagged as a bot, else
insert a `NEW_DM` job. The collection is modelled as the insertion-order
list of job documents. -/
def dm_listener_main (i : Inbound) (jobs : List JobDoc) : List JobDoc :=
  if dmFilter i then
    match i.from_user with
    | none => jobs
    | some u => if u.is_bot then jobs else jobs ++ [dmJobDoc i u]
  else jobs

/-- `dm_listener` of user_bot.py (142-165), job-creation part: same
author checks, but additionally returns without inserting anything when
`get_config("INBOX_GROUP_ID")` is falsy (`if not group_id: return`).
The mirroring it performs after the insert is modelled in the state
machine below. -/
def dm_listener_user (cfg : ConfigStore) (i : Inbound) (jobs : List JobDoc) :
    List JobDoc :=
  if dmFilter i then
    match i.from_user with
    | none => jobs
    | some u =>
        if u.is_bot then jobs
        else
          match get_config cfg "INBOX_GROUP_ID" none with
          | none => jobs
          | some g => if cvalTruthy g then jobs ++ [dmJobDoc i u] else jobs
  else jobs

/-! ## The READY_TO_SEND claim (claim C1)

main.py `user_background` (417-423) claims with one round trip:
`JOBS.find_one_and_update({"status": READY_TO_SEND},
{"$set": {"status": SENDING, ...}})`, which matches on the status,
writes the new status atomically, and returns the pre-image only when
the match succeeded.

user_bot.py `process_jobs` (230-236) instead issues
`JOBS.find_one({"status": READY_TO_SEND})` and then, separately,
`JOBS.find_one_and_update({"_id": job["_id"]}, {"$set": {"status":
SENDING, ...}})` — a read followed by an id-matched write that does not
re-check the status. -/

/-- A job record as far as the claim protocol is concerned. -/
structure CJob where
  jid : Nat
  status : String
deriving DecidableEq, Repr

/-- The atomic claim of main.py `user_background`: update the first
document whose status is `READY_TO_SEND` to `SENDING` and return its
pre-image; return `none` and leave the store unchanged when nothing
matches. One indivisible store round trip. -/
def claimReady : List CJob → Option CJob × List CJob
  | [] => (none, [])
  | j :: rest =>
      if j.status = STATUS_READY_TO_SEND then
        (some j, { j with status := STATUS_SENDING } :: rest)
      else
        let r := claimReady rest
        (r.1, j :: r.2)

/-- `n` invocations of the atomic claim, one after the other: because
the claim is a single indivisible operation, every interleaving of `n`
concurrent callers is equal to some sequential order of the `n`
invocations. Returns the list of per-caller results. -/
def claimReadyN : Nat → List CJob → List (Option CJob) × List CJob
  | 0, s => ([], s)
  | n + 1, s =>
      let r := claimReady s
      let rs := claimReadyN n r.2
      (r.1 :: rs.1, rs.2)

/-- `JOBS.find_one({"status": READY_TO_SEND})`: a pure read returning
the first match. First half of user_bot.py's two-step claim. -/
def findReady (s : List CJob) : Option CJob :=
  s.find? (fun j => j.status = STATUS_READY_TO_SEND)

/-- `JOBS.find_one_and_update({"_id": i}, {"$set": {"status":
SENDING}})`: an id-matched write with no status precondition. Second
half of user_bot.py's two-step claim. -/
def markSending (i : Nat) (s : List CJob) : List CJob :=
  s.map (fun j => if j.jid = i then { j with status := STATUS_SENDING } else j)

/-- Two callers running user_bot.py's two-step claim against the same
store, interleaved so that both `find_one` round trips complete before
either `find_one_and_update` is issued (the two store operations of each
caller are separate round trips, so this interleaving is available to
two concurrently running processes). Returns what each caller observed
and the final store. -/
def twoStepRace (s : List CJob) : Option CJob × Option CJob × List CJob :=
  let rA := findReady s
  let rB := findReady s
  let s1 := match rA with
    | some j => markSending j.jid s
    | none => s
  let s2 := match rB with
    | some j => markSending j.jid s1
    | none => s1
  (rA, rB, s2)

/-- How many callers observed a successful claim. -/
def countClaims (rs : List (Option CJob)) : Nat :=
  rs.countP (fun r => r.isSome)

/-! ## The job state machine (claims C3 and C4)

The record of one job together with the program counters of the handler
instances that hold it. The by-id updates of the source are issued only
by the handler iteration that previously claimed (or inserted) the job,
with `await` suspension points between the claim and the update; the
`…PC` fields record that such an update is still pending.

* `mirrorPC`: a `std_background` iteration (main.py:306-368 /
  std_bot.py:299-372) holds the job between its atomic
  `NEW_DM → PENDING_REPLY` claim and its by-id mirror-result update.
* `sendPC`: a delivery iteration (main.py `user_background` 417-461 /
  user_bot.py `process_jobs` 230-274) holds the job between its
  `READY_TO_SEND → SENDING` claim and its by-id completion update.
* `dmPC`: user_bot.py's `dm_listener` (142-223) inserted the job and its
  own mirror attempt (with an unconditional by-id update at 208-223) has
  not landed yet. In main.py's `dm_listener` (391-410) the listener only
  inserts, so `dmPC` is false in the main.py deployment. -/

structure MJob where
  jtype : String
  status : String
  gmid : Option Nat
  mirrorPC : Bool
  sendPC : Bool
  dmPC : Bool
deriving DecidableEq, Repr

/-- The store operations of the main.py deployment that touch one job
(`ownerReply` carries the replied-to staged message id; the mirror and
send results carry the staged message id produced by the mirror). -/
inductive MOp where
  | claimMirror
  | mirrorOk (r : Nat)
  | mirrorFail
  | ownerReply (r : Nat)
  | claimSend
  | sendOk
  | sendFail
deriving DecidableEq, Repr

/-- One store operation against the job record. Each case is one store
round trip of the source, with its match condition as the guard; an
operation whose match fails leaves the record unchanged.

* `claimMirror`: `find_one_and_update({"status": NEW_DM}, {"$set":
  {"status": PENDING_REPLY, ...}})` — the mirror loop's atomic claim,
  issued before any mirroring happens (main.py:306-309).
* `mirrorOk r`: the claiming iteration's by-id update recording
  `group_message_id = r` and status `PENDING_REPLY` (main.py:353-361).
* `mirrorFail`: the claiming iteration's by-id update to `ERROR`
  (main.py:365-368).
* `ownerReply r`: `owner_group_replies` (main.py:244-262) — a
  `find_one({"status": PENDING_REPLY, "group_message_id": r})` followed
  without any suspension point by the by-id update to `READY_TO_SEND`;
  since both run on one event loop with no `await` between them, the
  pair acts as one guarded step.
* `claimSend`: the delivery claim to `SENDING` (main.py:417-420).
* `sendOk` / `sendFail`: the claiming delivery iteration's by-id update
  to `COMPLETED` / `ERROR` (main.py:451-460). -/
def execM : MOp → MJob → MJob
  | .claimMirror, j =>
      if j.status = STATUS_NEW_DM then
        { j with status := STATUS_PENDING_REPLY, mirrorPC := true }
      else j
  | .mirrorOk r, j =>
      if j.mirrorPC then
        { j with status := STATUS_PENDING_REPLY, gmid := some r,
                 mirrorPC := false }
      else j
  | .mirrorFail, j =>
      if j.mirrorPC then
        { j with status := STATUS_ERROR, mirrorPC := false }
      else j
  | .ownerReply r, j =>
      if j.status = STATUS_PENDING_REPLY ∧ j.gmid = some r then
        { j with status := STATUS_READY_TO_SEND }
      else j
  | .claimSend, j =>
      if j.status = STATUS_READY_TO_SEND then
        { j with status := STATUS_SENDING, sendPC := true }
      else j
  | .sendOk, j =>
      if j.sendPC then
        { j with status := STATUS_COMPLETED, sendPC := false }
      else j
  | .sendFail, j =>
      if j.sendPC then
        { j with status := STATUS_ERROR, sendPC := false }
      else j

/-- A DM_FLOW job as main.py's `dm_listener` inserts it. -/
def initDM : MJob :=
  { jtype := TYPE_DM_FLOW, status := STATUS_NEW_DM, gmid := none,
    mirrorPC := false, sendPC := false, dmPC := false }

/-- A MANUAL_SEND job as `cmd_send_protected` inserts it
(main.py:278-291): born `READY_TO_SEND` with no staged message. -/
def initManual : MJob :=
  { jtype := TYPE_MANUAL_SEND, status := STATUS_READY_TO_SEND, gmid := none,
    mirrorPC := false, sendPC := false, dmPC := false }

/-- The entry states of the main.py deployment. -/
def isInitM (j : MJob) : Prop := j = initDM ∨ j = initManual

/-- Run a sequence of store operations. -/
def runM (ops : List MOp) (j : MJob) : MJob :=
  ops.foldl (fun s op => execM op s) j

/-- Position of a status in the pipeline; the two terminal statuses
share the top rank. -/
def rank (s : String) : Nat :=
  if s = STATUS_NEW_DM then 0
  else if s = STATUS_PENDING_REPLY then 1
  else if s = STATUS_READY_TO_SEND then 2
  else if s = STATUS_SENDING then 3
  else if s = STATUS_COMPLETED then 4
  else if s = STATUS_ERROR then 4
  else 0

/-! ## The split deployment (std_bot.py + user_bot.py)

In the split deployment user_bot.py's `dm_listener` not only inserts the
`NEW_DM` job but also mirrors it itself, finishing with an unconditional
by-id update (user_bot.py:208-216 on success, 220-223 on failure) that
sets `PENDING_REPLY` (or `ERROR`) regardless of the job's status at that
moment. std_bot.py's `std_background` runs in a different process and
can claim and mirror the same `NEW_DM` job concurrently. -/

/-- Store operations available in the split deployment: all operations
of the pipeline plus the pending by-id update of the `dm_listener`
iteration that inserted the job. -/
inductive XOp where
  | base (op : MOp)
  | dmMirrorOk (r : Nat)
  | dmMirrorFail
deriving DecidableEq, Repr

/-- `dmMirrorOk` / `dmMirrorFail` are user_bot.py:208-216 / 220-223: the
update matches only on `_id`, so it applies whatever the status is. -/
def execX : XOp → MJob → MJob
  | .base op, j => execM op j
  | .dmMirrorOk r, j =>
      if j.dmPC then
        { j with status := STATUS_PENDING_REPLY, gmid := some r,
                 dmPC := false }
      else j
  | .dmMirrorFail, j =>
      if j.dmPC then
        { j with status := STATUS_ERROR, dmPC := false }
      else j

/-- A DM_FLOW job as user_bot.py's `dm_listener` inserts it: the
inserting handler still owes its own mirror update. -/
def initDMSplit : MJob :=
  { jtype := TYPE_DM_FLOW, status := STATUS_NEW_DM, gmid := none,
    mirrorPC := false, sendPC := false, dmPC := true }

/-- Run a sequence of split-deployment store operations. -/
def runX (ops : List XOp) (j : MJob) : MJob :=
  ops.foldl (fun s op => execX op s) j

/-! ## Delivery outcomes (claim C8) -/

/-- The outcome the protocol collaborator reports for one send attempt:
success, a rate-limit signal carrying the required wait in seconds
(pyrogram `FloodWait`, with `e.value` the wait), or any other error. -/
inductive SendOutcome where
  | ok
  | floodWait (w : Nat)
  | err (msg : String)
deriving DecidableEq, Repr

/-- `str(e)` of a failure, as captured into the job's `error` field. -/
def outcomeDescr : SendOutcome → String
  | .ok => ""
  | .floodWait w => "Telegram says: [420 FLOOD_WAIT_X] (wait " ++
      toString w ++ " seconds)"
  | .err m => m

/-- The `try/except` around the send in the delivery loop
(main.py:430-461, identically user_bot.py:243-274): on success the
claimed job is updated to `COMPLETED`; on ANY exception — `FloodWait`
included, since the handler is `except Exception` — it is updated to
`ERROR` with `str(e)` in `error`. There is no rate-limit branch: the
only `FloodWait`-specific handling in the sources is in
`generate_session` (main.py:233-236), which sleeps `e.value` seconds. -/
def finishDelivery (j : JobDoc) (o : SendOutcome) : JobDoc :=
  match o with
  | .ok => { j with status := STATUS_COMPLETED }
  | o => { j with status := STATUS_ERROR, error := some (outcomeDescr o) }

/-! ## Derived definitions used by the claims -/

/-- The inductive invariant of the main.py deployment's state machine:
a freshly inserted `NEW_DM` job has no staged message yet; an iteration
holding the mirror claim sits on a `PENDING_REPLY` job whose reference
is still unset; an iteration holding the send claim sits on a `SENDING`
job; and every DM_FLOW job at or past `READY_TO_SEND` carries its staged
message reference. -/
def InvM (j : MJob) : Prop :=
  (j.status = STATUS_NEW_DM → j.gmid = none)
  ∧ (j.mirrorPC = true → j.status = STATUS_PENDING_REPLY ∧ j.gmid = none)
  ∧ (j.sendPC = true → j.status = STATUS_SENDING)
  ∧ (j.jtype = TYPE_DM_FLOW →
      (j.status = STATUS_READY_TO_SEND ∨ j.status = STATUS_SENDING ∨
       j.status = STATUS_COMPLETED) →
      j.gmid ≠ none)

/-- Claim C3 as stated: for a DM_FLOW job, every status from
`PENDING_REPLY` on implies a recorded staging message reference. -/
def c3ClaimInv (j : MJob) : Prop :=
  j.jtype = TYPE_DM_FLOW →
  (j.status = STATUS_PENDING_REPLY ∨ j.status = STATUS_READY_TO_SEND ∨
   j.status = STATUS_SENDING ∨ j.status = STATUS_COMPLETED) →
  j.gmid ≠ none

/-- A full pipeline run in the split deployment: std_bot.py claims and
mirrors the job, the operator replies, user_bot.py claims and delivers
it to completion — all while the inserting `dm_listener` iteration is
still suspended before its own mirror update. -/
def regressTrace : List XOp :=
  [XOp.base MOp.claimMirror, XOp.base (MOp.mirrorOk 5),
   XOp.base (MOp.ownerReply 5), XOp.base MOp.claimSend, XOp.base MOp.sendOk]

/-- A stored button that `build_reply_markup` reconstructs verbatim:
exactly one action field is truthy and the remaining action fields are
absent. -/
def goodBtn (b : Btn) : Prop :=
  (truthy b.url = true ∧ b.callback_data = none ∧ b.switch_inline_query = none
    ∧ b.switch_inline_query_current_chat = none)
  ∨ (b.url = none ∧ truthy b.callback_data = true ∧ b.switch_inline_query = none
    ∧ b.switch_inline_query_current_chat = none)
  ∨ (b.url = none ∧ b.callback_data = none ∧ truthy b.switch_inline_query = true
    ∧ b.switch_inline_query_current_chat = none)
  ∨ (b.url = none ∧ b.callback_data = none ∧ b.switch_inline_query = none
    ∧ truthy b.switch_inline_query_current_chat = true)

/-- A button layout that survives `build_reply_markup`: either absent,
or a non-empty row list whose buttons are all `goodBtn`. -/
def goodButtons : Option (List (List Btn)) → Prop
  | none => True
  | some rows => rows ≠ [] ∧ ∀ row ∈ rows, ∀ b ∈ row, goodBtn b

instance goodBtnDec (b : Btn) : Decidable (goodBtn b) := by
  unfold goodBtn
  infer_instance

instance goodButtonsDec (bs : Option (List (List Btn))) :
    Decidable (goodButtons bs) := by
  cases bs with
  | none => exact isTrue trivial
  | some rows =>
      show Decidable (rows ≠ [] ∧ ∀ row ∈ rows, ∀ b ∈ row, goodBtn b)
      infer_instance

/-- The messages on which the delivery dispatch inverts the encoder:
the encoded kind is neither `sticker` nor `video_note` (whose send
branches drop caption and reply markup), a text-kind message has truthy
body-or-caption (else the `"(no text)"` placeholder replaces it), and
the button layout is reconstructible. -/
def roundTripSafe (m : Msg) : Prop :=
  (extract_content m).kind ≠ "sticker"
  ∧ (extract_content m).kind ≠ "video_note"
  ∧ ((extract_content m).kind = "text" →
      truthy (pyOr m.msgText m.caption) = true)
  ∧ goodButtons m.reply_markup

instance roundTripSafeDec (m : Msg) : Decidable (roundTripSafe m) := by
  unfold roundTripSafe
  infer_instance

/-- A sticker message carrying an inline keyboard. -/
def stickerBtnMsg : Msg :=
  { sticker := some "stk1"
    reply_markup := some [[⟨"open", some "u1", none, none, none⟩]] }

/-- A photo message with a caption and a URL button. -/
def niceMsg : Msg :=
  { caption := some "pic"
    reply_markup := some [[⟨"open", some "u1", none, none, none⟩]]
    photo := some "ph1" }

/-- An ordinary inbound DM: private, incoming, from a human stranger. -/
def plainInbound : Inbound :=
  { content := { msgText := some "Hello" }
    from_user := some ⟨42, false, false⟩
    chat_id := 42
    message_id := 1
    isPrivate := true
    isIncoming := true }

/-- A config store with no entries and a reachable backend. -/
def emptyConfig : ConfigStore := { docs := [], failing := false }

/-- A DM_FLOW job as the delivery loop holds it right after claiming. -/
def claimedJob : JobDoc :=
  { jtype := TYPE_DM_FLOW
    status := STATUS_SENDING
    sender_id := 42
    target_chat_id := 42
    dm_message_id := some 1
    group_topic_id := some 2
    group_message_id := some 3
    content_in := some ⟨some "Hello", none, "text", none⟩
    content_out := some ⟨some "Hi there!", none, "text", none⟩
    error := none }

/-! ## Codec field lemmas -/

/-- Truthiness of Python `a or b` is the disjunction of truthiness. -/
theorem truthy_pyOr (a b : Option String) :
    truthy (pyOr a b) = (truthy a || truthy b) := by
  unfold pyOr
  by_cases h : truthy a <;> simp [h]

/-- A truthy optional string is present. -/
theorem truthy_ne_none {o : Option String} (h : truthy o = true) : o ≠ none := by
  cases o <;> simp [truthy] at *

/-- The `text` field of an encoded payload. -/
theorem ec_text (m : Msg) :
    (extract_content m).text =
      if truthy (pyOr m.msgText m.caption) then pyOr m.msgText m.caption
      else none := rfl

/-- The `buttons` field of an encoded payload is the message's markup,
copied verbatim. -/
theorem ec_buttons (m : Msg) :
    (extract_content m).buttons = m.reply_markup := rfl

/-- The `kind` and `file_id` fields of an encoded payload come from the
fixed-priority attachment probe. -/
theorem ec_kf (m : Msg) :
    ((extract_content m).kind, (extract_content m).file_id) =
      (if m.photo.isSome then ("photo", m.photo)
       else if m.video.isSome then ("video", m.video)
       else if m.document.isSome then ("document", m.document)
       else if m.sticker.isSome then ("sticker", m.sticker)
       else if m.animation.isSome then ("animation", m.animation)
       else if m.audio.isSome then ("audio", m.audio)
       else if m.voice.isSome then ("voice", m.voice)
       else if m.video_note.isSome then ("video_note", m.video_note)
       else ("text", none)) := rfl

/-- An encoded `text` field is never the empty string: it is absent or
truthy. -/
theorem ec_text_shape (m : Msg) :
    (extract_content m).text = none ∨
    ∃ s, (extract_content m).text = some s ∧ s.isEmpty = false := by
  rw [ec_text]
  by_cases h : truthy (pyOr m.msgText m.caption) = true
  · right
    cases hp : pyOr m.msgText m.caption with
    | none => rw [hp] at h; simp [truthy] at h
    | some s =>
        rw [hp] at h
        simp only [truthy, Bool.not_eq_true'] at h
        exact ⟨s, by simp [hp, truthy, h], h⟩
  · left
    simp [h]

/-- Two payloads with equal fields are equal. -/
theorem payload_ext {x y : Payload} (h1 : x.text = y.text)
    (h2 : x.buttons = y.buttons) (h3 : x.kind = y.kind)
    (h4 : x.file_id = y.file_id) : x = y := by
  cases x
  cases y
  simp_all

/-- `build_reply_markup` reconstructs a `goodBtn` unchanged. -/
theorem rebuild_good (b : Btn) (h : goodBtn b) : rebuildBtn b = b := by
  obtain ⟨t, u, c, q, qc⟩ := b
  rcases h with ⟨h1, h2, h3, h4⟩ | ⟨h1, h2, h3, h4⟩ | ⟨h1, h2, h3, h4⟩ | ⟨h1, h2, h3, h4⟩ <;>
    simp_all [rebuildBtn, truthy]

/-- `build_reply_markup` is the identity on `goodButtons` layouts. -/
theorem build_good (bs : Option (List (List Btn))) (h : goodButtons bs) :
    build_reply_markup bs = bs := by
  cases bs with
  | none => rfl
  | some rows =>
      obtain ⟨hne, hall⟩ := h
      show (if rows.isEmpty = true then none
        else some (rows.map (fun row => row.map rebuildBtn))) = some rows
      rw [if_neg (by simpa [List.isEmpty_iff] using hne)]
      congr 1
      rw [show rows.map (fun row => row.map rebuildBtn) = rows.map id from
        List.map_congr_left (fun row hr => by
          simp only [id]
          rw [show row.map rebuildBtn = row.map id from
            List.map_congr_left (fun b hb => by
              simp only [id]
              exact rebuild_good b (hall row hr b hb))]
          exact List.map_id row)]
      exact List.map_id rows

/-! ## Per-kind delivery round trips

For the media kinds whose send branch passes both a caption and the
reply markup, decoding an encoded payload and re-encoding the delivered
message is the identity, provided the text has encoder shape and the
buttons are reconstructible. -/

theorem photo_roundtrip (pt : Option String) (pb : Option (List (List Btn)))
    (pf : Option String)
    (hshape : pt = none ∨ ∃ s, pt = some s ∧ s.isEmpty = false)
    (hb : build_reply_markup pb = pb) (hf : pf.isSome = true) :
    extract_content (sendProtected ⟨pt, pb, "photo", pf⟩)
      = ⟨pt, pb, "photo", pf⟩ := by
  have hsend : sendProtected ⟨pt, pb, "photo", pf⟩ =
      { photo := pf, caption := pt, reply_markup := pb } := by
    simp [sendProtected, hb]
  rw [hsend]
  obtain ⟨f, rfl⟩ := Option.isSome_iff_exists.mp hf
  rcases hshape with rfl | ⟨s, rfl, hs⟩
  · simp [extract_content, pyOr, truthy]
  · simp [extract_content, pyOr, truthy, hs]

theorem video_roundtrip (pt : Option String) (pb : Option (List (List Btn)))
    (pf : Option String)
    (hshape : pt = none ∨ ∃ s, pt = some s ∧ s.isEmpty = false)
    (hb : build_reply_markup pb = pb) (hf : pf.isSome = true) :
    extract_content (sendProtected ⟨pt, pb, "video", pf⟩)
      = ⟨pt, pb, "video", pf⟩ := by
  have hsend : sendProtected ⟨pt, pb, "video", pf⟩ =
      { video := pf, caption := pt, reply_markup := pb } := by
    simp [sendProtected, hb]
  rw [hsend]
  obtain ⟨f, rfl⟩ := Option.isSome_iff_exists.mp hf
  rcases hshape with rfl | ⟨s, rfl, hs⟩
  · simp [extract_content, pyOr, truthy]
  · simp [extract_content, pyOr, truthy, hs]

theorem document_roundtrip (pt : Option String) (pb : Option (List (List Btn)))
    (pf : Option String)
    (hshape : pt = none ∨ ∃ s, pt = some s ∧ s.isEmpty = false)
    (hb : build_reply_markup pb = pb) (hf : pf.isSome = true) :
    extract_content (sendProtected ⟨pt, pb, "document", pf⟩)
      = ⟨pt, pb, "document", pf⟩ := by
  have hsend : sendProtected ⟨pt, pb, "document", pf⟩ =
      { document := pf, caption := pt, reply_markup := pb } := by
    simp [sendProtected, hb]
  rw [hsend]
  obtain ⟨f, rfl⟩ := Option.isSome_iff_exists.mp hf
  rcases hshape with rfl | ⟨s, rfl, hs⟩
  · simp [extract_content, pyOr, truthy]
  · simp [extract_content, pyOr, truthy, hs]

theorem animation_roundtrip (pt : Option String) (pb : Option (List (List Btn)))
    (pf : Option String)
    (hshape : pt = none ∨ ∃ s, pt = some s ∧ s.isEmpty = false)
    (hb : build_reply_markup pb = pb) (hf : pf.isSome = true) :
    extract_content (sendProtected ⟨pt, pb, "animation", pf⟩)
      = ⟨pt, pb, "animation", pf⟩ := by
  have hsend : sendProtected ⟨pt, pb, "animation", pf⟩ =
      { animation := pf, caption := pt, reply_markup := pb } := by
    simp [sendProtected, hb]
  rw [hsend]
  obtain ⟨f, rfl⟩ := Option.isSome_iff_exists.mp hf
  rcases hshape with rfl | ⟨s, rfl, hs⟩
  · simp [extract_content, pyOr, truthy]
  · simp [extract_content, pyOr, truthy, hs]

theorem audio_roundtrip (pt : Option String) (pb : Option (List (List Btn)))
    (pf : Option String)
    (hshape : pt = none ∨ ∃ s, pt = some s ∧ s.isEmpty = false)
    (hb : build_reply_markup pb = pb) (hf : pf.isSome = true) :
    extract_content (sendProtected ⟨pt, pb, "audio", pf⟩)
      = ⟨pt, pb, "audio", pf⟩ := by
  have hsend : sendProtected ⟨pt, pb, "audio", pf⟩ =
      { audio := pf, caption := pt, reply_markup := pb } := by
    simp [sendProtected, hb]
  rw [hsend]
  obtain ⟨f, rfl⟩ := Option.isSome_iff_exists.mp hf
  rcases hshape with rfl | ⟨s, rfl, hs⟩
  · simp [extract_content, pyOr, truthy]
  · simp [extract_content, pyOr, truthy, hs]

theorem voice_roundtrip (pt : Option String) (pb : Option (List (List Btn)))
    (pf : Option String)
    (hshape : pt = none ∨ ∃ s, pt = some s ∧ s.isEmpty = false)
    (hb : build_reply_markup pb = pb) (hf : pf.isSome = true) :
    extract_content (sendProtected ⟨pt, pb, "voice", pf⟩)
      = ⟨pt, pb, "voice", pf⟩ := by
  have hsend : sendProtected ⟨pt, pb, "voice", pf⟩ =
      { voice := pf, caption := pt, reply_markup := pb } := by
    simp [sendProtected, hb]
  rw [hsend]
  obtain ⟨f, rfl⟩ := Option.isSome_iff_exists.mp hf
  rcases hshape with rfl | ⟨s, rfl, hs⟩
  · simp [extract_content, pyOr, truthy]
  · simp [extract_content, pyOr, truthy, hs]

theorem text_roundtrip (s : String) (hs : s.isEmpty = false)
    (pb : Option (List (List Btn))) (hb : build_reply_markup pb = pb) :
    extract_content (sendProtected ⟨some s, pb, "text", none⟩)
      = ⟨some s, pb, "text", none⟩ := by
  have hsend : sendProtected ⟨some s, pb, "text", none⟩ =
      { msgText := some (orDefault (some s) "(no text)"), reply_markup := pb } := by
    simp [sendProtected, hb]
  rw [hsend]
  simp [extract_content, orDefault, pyOr, truthy, hs]

/-! ## Claim-protocol and state-machine helper lemmas -/

/-- Once a job is `SENDING`, every further atomic claim returns no
match and leaves the store unchanged. -/
theorem claimReadyN_sending (n i : Nat) :
    claimReadyN n [⟨i, STATUS_SENDING⟩]
      = (List.replicate n none, [⟨i, STATUS_SENDING⟩]) := by
  induction n with
  | zero => rfl
  | succ k ih =>
      rw [claimReadyN,
        show claimReady [⟨i, STATUS_SENDING⟩] = (none, [⟨i, STATUS_SENDING⟩]) from by
          simp [claimReady, STATUS_SENDING, STATUS_READY_TO_SEND]]
      rw [ih]
      rfl

/-- The entry states satisfy the inductive invariant. -/
theorem invM_init (j : MJob) (h : isInitM j) : InvM j := by
  rcases h with h | h <;> subst h <;> unfold InvM <;> decide

/-- Every store operation of the main.py deployment preserves the
inductive invariant. -/
theorem invM_step (op : MOp) (j : MJob) (h : InvM j) : InvM (execM op j) := by
  obtain ⟨h1, h2, h3, h4⟩ := h
  cases op <;>
    simp only [execM] <;>
    split_ifs <;>
    simp_all [InvM, STATUS_NEW_DM, STATUS_PENDING_REPLY, STATUS_READY_TO_SEND,
      STATUS_SENDING, STATUS_COMPLETED, STATUS_ERROR]

/-- Under the invariant, no store operation of the main.py deployment
lowers a job's status rank. -/
theorem rank_step (op : MOp) (j : MJob) (h : InvM j) :
    rank j.status ≤ rank (execM op j).status := by
  obtain ⟨h1, h2, h3, h4⟩ := h
  cases op <;>
    simp only [execM] <;>
    split_ifs <;>
    simp_all [rank, STATUS_NEW_DM, STATUS_PENDING_REPLY, STATUS_READY_TO_SEND,
      STATUS_SENDING, STATUS_COMPLETED, STATUS_ERROR]

/-- Under the invariant, a job in a terminal status is untouched by
every store operation of the main.py deployment. -/
theorem terminal_step (op : MOp) (j : MJob) (h : InvM j)
    (ht : j.status = STATUS_COMPLETED ∨ j.status = STATUS_ERROR) :
    execM op j = j := by
  obtain ⟨h1, h2, h3, h4⟩ := h
  cases op <;>
    simp only [execM] <;>
    split_ifs <;>
    simp_all [STATUS_NEW_DM, STATUS_PENDING_REPLY, STATUS_READY_TO_SEND,
      STATUS_SENDING, STATUS_COMPLETED, STATUS_ERROR]

/-- The invariant holds along every run from an invariant state. -/
theorem invM_run (ops : List MOp) (j : MJob) (h : InvM j) : InvM (runM ops j) := by
  induction ops generalizing j with
  | nil => exact h
  | cons op ops ih => exact ih (execM op j) (invM_step op j h)

/-- Running one more operation is one more step. -/
theorem runM_concat (ops : List MOp) (op : MOp) (j : MJob) :
    runM (ops ++ [op]) j = execM op (runM ops j) := by
  simp [runM, List.foldl_append]

/-! ## Config store helper lemmas -/

/-- After the upsert's map branch, lookup by key finds the new value. -/
theorem find?_map_set (l : List ConfigDoc) (key : String) (v : CVal)
    (dd0 : ConfigDoc) (h : l.find? (fun dd => dd.key = key) = some dd0) :
    (l.map (fun dd => if dd.key = key then (⟨key, some v⟩ : ConfigDoc) else dd)).find?
      (fun dd => dd.key = key) = some ⟨key, some v⟩ := by
  induction l with
  | nil => simp at h
  | cons a l ih =>
      by_cases ha : a.key = key
      · simp [List.map_cons, List.find?_cons_of_pos, ha]
      · rw [List.find?_cons_of_neg _ (by simpa using ha)] at h
        rw [List.map_cons, if_neg ha,
          List.find?_cons_of_neg _ (by simpa using ha)]
        exact ih h

/-- After the upsert's insert branch, lookup by key finds the new
document appended at the end. -/
theorem find?_append_single (l : List ConfigDoc) (key : String) (v : CVal)
    (h : l.find? (fun dd => dd.key = key) = none) :
    (l ++ [(⟨key, some v⟩ : ConfigDoc)]).find? (fun dd => dd.key = key)
      = some ⟨key, some v⟩ := by
  rw [List.find?_append, h, Option.none_or]
  exact List.find?_cons_of_pos _ (by simp)

/-! ## Claim C1 -/

/-- C1 counterexample. The claim states that the operation moving a job
out of READY_TO_SEND is a single atomic match-and-set, so that of N ≥ 2
invocations against the same job exactly one returns the job. In
user_bot.py `process_jobs` (230-236) the claim is instead a `find_one`
followed by a separate id-matched update: in the interleaving where both
callers' reads complete before either write, both callers observe the
job, so the number of successful claims is 2, not 1. -/
theorem c1_counterexample :
    (twoStepRace [⟨7, STATUS_READY_TO_SEND⟩]).1
      = some ⟨7, STATUS_READY_TO_SEND⟩
  ∧ (twoStepRace [⟨7, STATUS_READY_TO_SEND⟩]).2.1
      = some ⟨7, STATUS_READY_TO_SEND⟩
  ∧ countClaims [(twoStepRace [⟨7, STATUS_READY_TO_SEND⟩]).1,
      (twoStepRace [⟨7, STATUS_READY_TO_SEND⟩]).2.1] ≠ 1 := by
  refine ⟨rfl, rfl, by decide⟩

/-- C1 (amended): main.py `user_background` (417-423) claims with a
single atomic `find_one_and_update` matching on READY_TO_SEND and
setting SENDING, returning the pre-image only on a successful match;
for that operation, of n ≥ 2 invocations against a job, exactly the
first returns the job (with its READY_TO_SEND pre-image) and the others
return no match. user_bot.py `process_jobs` claims with a separate
read-then-write instead, for which the exclusivity fails (see the
counterexample). -/
theorem c1_amended (i n : Nat) (h : 2 ≤ n) :
    (claimReadyN n [⟨i, STATUS_READY_TO_SEND⟩]).1
      = some ⟨i, STATUS_READY_TO_SEND⟩ :: List.replicate (n - 1) none
  ∧ countClaims (claimReadyN n [⟨i, STATUS_READY_TO_SEND⟩]).1 = 1 := by
  obtain ⟨m, rfl⟩ : ∃ m, n = m + 1 := ⟨n - 1, by omega⟩
  have h1 : claimReadyN (m + 1) [⟨i, STATUS_READY_TO_SEND⟩]
      = (some ⟨i, STATUS_READY_TO_SEND⟩ :: List.replicate m none,
         [⟨i, STATUS_SENDING⟩]) := by
    rw [claimReadyN,
      show claimReady [⟨i, STATUS_READY_TO_SEND⟩]
          = (some ⟨i, STATUS_READY_TO_SEND⟩, [⟨i, STATUS_SENDING⟩]) from by
        simp [claimReady]]
    rw [claimReadyN_sending]
  have hz : (List.replicate m (none : Option CJob)).countP (fun r => r.isSome) = 0 := by
    refine List.countP_eq_zero.mpr ?_
    intro a ha
    simp [List.eq_of_mem_replicate ha]
  constructor
  · rw [h1]
    simp
  · rw [h1]
    simp [countClaims, List.countP_cons, hz]

/-- C1 amended, witnessed at n = 2: exactly one of two atomic claims
succeeds. -/
theorem c1_amended_witness :
    (2 ≤ 2) ∧
    countClaims (claimReadyN 2 [⟨7, STATUS_READY_TO_SEND⟩]).1 = 1 :=
  ⟨by decide, (c1_amended 7 2 (by decide)).2⟩

/-! ## Claim C2 -/

/-- C2 counterexample. The claim states that for every supported
content kind, encode-decode-re-encode preserves the payload exactly,
buttons included. For a sticker message carrying an inline keyboard the
delivery dispatch (user_bot.py:252-253) sends the sticker without
`reply_markup`, so the re-encoded payload has lost the buttons. -/
theorem c2_counterexample :
    roundTrip stickerBtnMsg ≠ extract_content stickerBtnMsg := by decide

/-- C2 (amended): the codec round trip encode-decode-re-encode is the
identity for payloads whose kind is not `sticker` or `video_note`
(those two send branches drop caption and reply markup), whose text is
truthy when the kind is `text` (otherwise the `"(no text)"` placeholder
is substituted), and whose button layout, when present, is a non-empty
row list of buttons with exactly one truthy action and no other action
fields (otherwise `build_reply_markup` drops rows or substitutes the
`"noop"` placeholder action). -/
theorem c2_amended (m : Msg) (h : roundTripSafe m) :
    roundTrip m = extract_content m := by
  obtain ⟨hsk, hvn, htx, hgb⟩ := h
  have hb : build_reply_markup m.reply_markup = m.reply_markup := build_good _ hgb
  have hshape := ec_text_shape m
  have hk := ec_kf m
  unfold roundTrip
  iterate 9 (all_goals try split at hk)
  · rename_i hcur
    rw [Prod.mk.injEq] at hk
    obtain ⟨hkind, hfid⟩ := hk
    have hP : extract_content m =
        ⟨(extract_content m).text, m.reply_markup, "photo", m.photo⟩ :=
      payload_ext rfl (ec_buttons m) hkind hfid
    rw [hP, photo_roundtrip _ _ _ hshape hb hcur]
  · rename_i hcur
    rw [Prod.mk.injEq] at hk
    obtain ⟨hkind, hfid⟩ := hk
    have hP : extract_content m =
        ⟨(extract_content m).text, m.reply_markup, "video", m.video⟩ :=
      payload_ext rfl (ec_buttons m) hkind hfid
    rw [hP, video_roundtrip _ _ _ hshape hb hcur]
  · rename_i hcur
    rw [Prod.mk.injEq] at hk
    obtain ⟨hkind, hfid⟩ := hk
    have hP : extract_content m =
        ⟨(extract_content m).text, m.reply_markup, "document", m.document⟩ :=
      payload_ext rfl (ec_buttons m) hkind hfid
    rw [hP, document_roundtrip _ _ _ hshape hb hcur]
  · rw [Prod.mk.injEq] at hk
    exact absurd hk.1 hsk
  · rename_i hcur
    rw [Prod.mk.injEq] at hk
    obtain ⟨hkind, hfid⟩ := hk
    have hP : extract_content m =
        ⟨(extract_content m).text, m.reply_markup, "animation", m.animation⟩ :=
      payload_ext rfl (ec_buttons m) hkind hfid
    rw [hP, animation_roundtrip _ _ _ hshape hb hcur]
  · rename_i hcur
    rw [Prod.mk.injEq] at hk
    obtain ⟨hkind, hfid⟩ := hk
    have hP : extract_content m =
        ⟨(extract_content m).text, m.reply_markup, "audio", m.audio⟩ :=
      payload_ext rfl (ec_buttons m) hkind hfid
    rw [hP, audio_roundtrip _ _ _ hshape hb hcur]
  · rename_i hcur
    rw [Prod.mk.injEq] at hk
    obtain ⟨hkind, hfid⟩ := hk
    have hP : extract_content m =
        ⟨(extract_content m).text, m.reply_markup, "voice", m.voice⟩ :=
      payload_ext rfl (ec_buttons m) hkind hfid
    rw [hP, voice_roundtrip _ _ _ hshape hb hcur]
  · rw [Prod.mk.injEq] at hk
    exact absurd hk.1 hvn
  · rw [Prod.mk.injEq] at hk
    obtain ⟨hkind, hfid⟩ := hk
    have htr := htx hkind
    rcases hshape with hnone | ⟨s, hsome, hs⟩
    · rw [ec_text, if_pos htr] at hnone
      exact absurd hnone (truthy_ne_none htr)
    · have hP : extract_content m = ⟨some s, m.reply_markup, "text", none⟩ :=
        payload_ext hsome (ec_buttons m) hkind hfid
      rw [hP, text_roundtrip s hs m.reply_markup hb]

/-- C2 amended, witnessed on a captioned photo with a URL button. -/
theorem c2_amended_witness :
    roundTripSafe niceMsg ∧ roundTrip niceMsg = extract_content niceMsg :=
  ⟨by decide, c2_amended niceMsg (by decide)⟩

/-! ## Claim C3 -/

/-- C3 counterexample. The claim states that a DM_FLOW job's staging
message reference is non-null whenever the status is PENDING_REPLY or
later, and that a NEW job transitions to PENDING_REPLY only after the
mirror succeeded. In the source the mirror loop's atomic claim
(main.py:306-309) sets the status to PENDING_REPLY first and mirrors
afterwards, so right after the claim the job is PENDING_REPLY with
`group_message_id` still null. -/
theorem c3_counterexample : ¬ c3ClaimInv (runM [MOp.claimMirror] initDM) := by
  unfold c3ClaimInv
  decide

/-- C3 (amended): along every run of the main.py deployment's store
operations from an entry state, a DM_FLOW job whose status is
READY_TO_SEND, SENDING or COMPLETED has a non-null staging message
reference; the invariant does not cover PENDING_REPLY, which the mirror
loop enters before mirroring. -/
theorem c3_amended (init : MJob) (ops : List MOp) (h : isInitM init)
    (hdm : (runM ops init).jtype = TYPE_DM_FLOW)
    (hst : (runM ops init).status = STATUS_READY_TO_SEND ∨
           (runM ops init).status = STATUS_SENDING ∨
           (runM ops init).status = STATUS_COMPLETED) :
    (runM ops init).gmid ≠ none :=
  (invM_run ops init (invM_init init h)).2.2.2 hdm hst

/-- C3 amended, witnessed on the run claim-mirror, mirror-ok, owner
reply: the READY_TO_SEND job carries its staged message reference. -/
theorem c3_amended_witness :
    isInitM initDM ∧
    (runM [MOp.claimMirror, MOp.mirrorOk 5, MOp.ownerReply 5] initDM).gmid ≠ none :=
  ⟨Or.inl rfl,
   c3_amended initDM [MOp.claimMirror, MOp.mirrorOk 5, MOp.ownerReply 5]
     (Or.inl rfl) (by decide) (by decide)⟩

/-! ## Claim C4 -/

/-- C4 counterexample. The claim states that no sequence of the store
operations of the two processes ever moves a job from COMPLETED or
ERROR back to an earlier status. In the split deployment user_bot.py's
`dm_listener` inserts the NEW_DM job and later finishes its own mirror
with an unconditional by-id update (user_bot.py:208-216); if
std_bot.py's mirror loop, the operator's reply and user_bot.py's
delivery loop complete the job in the meantime, that pending update
lands on a COMPLETED job and moves it back to PENDING_REPLY, lowering
its rank. -/
theorem c4_counterexample :
    (runX regressTrace initDMSplit).status = STATUS_COMPLETED
  ∧ (runX (regressTrace ++ [XOp.dmMirrorOk 9]) initDMSplit).status
      = STATUS_PENDING_REPLY
  ∧ rank STATUS_PENDING_REPLY < rank STATUS_COMPLETED := by
  refine ⟨rfl, rfl, by decide⟩

/-- C4 (amended): restricted to the store operations of the main.py
deployment — where the DM listener only inserts, both claims are atomic
match-on-status updates, and each by-id update is issued only by the
handler iteration holding the corresponding claim — a job's status rank
never decreases and a COMPLETED or ERROR job is never modified again.
The regression is possible only with user_bot.py's additional
unconditional mirror update (see the counterexample). -/
theorem c4_amended (init : MJob) (ops : List MOp) (op : MOp)
    (h : isInitM init) :
    rank (runM ops init).status ≤ rank (runM (ops ++ [op]) init).status
  ∧ ((runM ops init).status = STATUS_COMPLETED ∨
     (runM ops init).status = STATUS_ERROR →
     runM (ops ++ [op]) init = runM ops init) := by
  have hi := invM_run ops init (invM_init init h)
  rw [runM_concat]
  exact ⟨rank_step op _ hi, fun ht => terminal_step op _ hi ht⟩

/-- C4 amended, witnessed on the claim-mirror step followed by the
mirror result. -/
theorem c4_amended_witness :
    isInitM initDM ∧
    rank (runM [MOp.claimMirror] initDM).status ≤
      rank (runM ([MOp.claimMirror] ++ [MOp.mirrorOk 3]) initDM).status :=
  ⟨Or.inl rfl,
   (c4_amended initDM [MOp.claimMirror] (MOp.mirrorOk 3) (Or.inl rfl)).1⟩

/-! ## Claim C5 -/

/-- C5 counterexample. The claim states that an inbound DM whose author
is neither the identity itself nor a bot always yields a NEW job.
user_bot.py's `dm_listener` (147-150) additionally returns without
creating any job when `INBOX_GROUP_ID` is not configured, as witnessed
by an ordinary human DM against an empty config store. -/
theorem c5_counterexample :
    dmFilter plainInbound = true
  ∧ plainInbound.from_user = some ⟨42, false, false⟩
  ∧ dm_listener_user emptyConfig plainInbound [] = [] := by
  refine ⟨rfl, rfl, ?_⟩
  decide

/-- C5 (amended): both DM listeners reject self-authored messages (via
the handler filter), messages without an author, and messages from
accounts flagged as bots, creating no job; for an accepted message,
main.py's listener always appends a NEW_DM job carrying the encoded
content, while user_bot.py's listener does so only when the
`INBOX_GROUP_ID` config value is present and truthy. -/
theorem c5_amended (cfg : ConfigStore) (i : Inbound) (jobs : List JobDoc)
    (u : User) :
    (fromMe i = true →
      dm_listener_main i jobs = jobs ∧ dm_listener_user cfg i jobs = jobs)
  ∧ (i.from_user = some u → u.is_bot = true →
      dm_listener_main i jobs = jobs ∧ dm_listener_user cfg i jobs = jobs)
  ∧ (i.from_user = none →
      dm_listener_main i jobs = jobs ∧ dm_listener_user cfg i jobs = jobs)
  ∧ (dmFilter i = true → i.from_user = some u → u.is_bot = false →
      dm_listener_main i jobs = jobs ++ [dmJobDoc i u]
      ∧ (dmJobDoc i u).status = STATUS_NEW_DM
      ∧ (dmJobDoc i u).jtype = TYPE_DM_FLOW
      ∧ (dmJobDoc i u).content_in = some (extract_content i.content))
  ∧ (dmFilter i = true → i.from_user = some u → u.is_bot = false →
      ∀ g, get_config cfg "INBOX_GROUP_ID" none = some g → cvalTruthy g = true →
      dm_listener_user cfg i jobs = jobs ++ [dmJobDoc i u]) := by
  refine ⟨?_, ?_, ?_, ?_, ?_⟩
  · intro hme
    have hf : dmFilter i = false := by simp [dmFilter, hme]
    simp [dm_listener_main, dm_listener_user, hf]
  · intro hu hbot
    by_cases hf : dmFilter i = true
    · simp [dm_listener_main, dm_listener_user, hf, hu, hbot]
    · simp only [Bool.not_eq_true] at hf
      simp [dm_listener_main, dm_listener_user, hf]
  · intro hu
    by_cases hf : dmFilter i = true
    · simp [dm_listener_main, dm_listener_user, hf, hu]
    · simp only [Bool.not_eq_true] at hf
      simp [dm_listener_main, dm_listener_user, hf]
  · intro hf hu hbot
    refine ⟨?_, rfl, rfl, rfl⟩
    simp [dm_listener_main, hf, hu, hbot]
  · intro hf hu hbot g hg hgt
    simp [dm_listener_user, hf, hu, hbot, hg, hgt]

/-- C5 amended, witnessed on an accepted human DM: main.py's listener
creates the NEW_DM job. -/
theorem c5_amended_witness :
    dmFilter plainInbound = true ∧
    dm_listener_main plainInbound []
      = [] ++ [dmJobDoc plainInbound ⟨42, false, false⟩] :=
  ⟨rfl,
   ((c5_amended emptyConfig plainInbound [] ⟨42, false, false⟩).2.2.2.1
     rfl rfl rfl).1⟩

/-! ## Claim C6 -/

/-- C6: the encoder probes attachments in the fixed priority order
photo, video, document, sticker, animation, audio, voice, video_note;
the first present attachment determines `kind` and `file_id`; with no
attachment the kind is `text`; the payload's text is the message body
when truthy, else its caption when truthy, else absent. -/
theorem c6_encode_priority (m : Msg) (f : String) :
    (m.photo = some f →
      (extract_content m).kind = "photo" ∧ (extract_content m).file_id = some f)
  ∧ (m.photo = none → m.video = some f →
      (extract_content m).kind = "video" ∧ (extract_content m).file_id = some f)
  ∧ (m.photo = none → m.video = none → m.document = some f →
      (extract_content m).kind = "document" ∧ (extract_content m).file_id = some f)
  ∧ (m.photo = none → m.video = none → m.document = none → m.sticker = some f →
      (extract_content m).kind = "sticker" ∧ (extract_content m).file_id = some f)
  ∧ (m.photo = none → m.video = none → m.document = none → m.sticker = none →
      m.animation = some f →
      (extract_content m).kind = "animation" ∧ (extract_content m).file_id = some f)
  ∧ (m.photo = none → m.video = none → m.document = none → m.sticker = none →
      m.animation = none → m.audio = some f →
      (extract_content m).kind = "audio" ∧ (extract_content m).file_id = some f)
  ∧ (m.photo = none → m.video = none → m.document = none → m.sticker = none →
      m.animation = none → m.audio = none → m.voice = some f →
      (extract_content m).kind = "voice" ∧ (extract_content m).file_id = some f)
  ∧ (m.photo = none → m.video = none → m.document = none → m.sticker = none →
      m.animation = none → m.audio = none → m.voice = none → m.video_note = some f →
      (extract_content m).kind = "video_note" ∧ (extract_content m).file_id = some f)
  ∧ (m.photo = none → m.video = none → m.document = none → m.sticker = none →
      m.animation = none → m.audio = none → m.voice = none → m.video_note = none →
      (extract_content m).kind = "text" ∧ (extract_content m).file_id = none)
  ∧ (truthy m.msgText = true → (extract_content m).text = m.msgText)
  ∧ (truthy m.msgText = false → truthy m.caption = true →
      (extract_content m).text = m.caption)
  ∧ (truthy m.msgText = false → truthy m.caption = false →
      (extract_content m).text = none) := by
  have hk := ec_kf m
  have ht := ec_text m
  refine ⟨?_,?_,?_,?_,?_,?_,?_,?_,?_,?_,?_,?_⟩ <;>
    · intros
      simp_all [Prod.ext_iff, pyOr]

/-- C6, witnessed on a photo message with a body. -/
theorem c6_encode_priority_witness :
    (extract_content { photo := some "f1", msgText := some "hi" } : Payload).kind
      = "photo" := by
  have h := c6_encode_priority { photo := some "f1", msgText := some "hi" } "f1"
  exact (h.1 rfl).1

/-! ## Claim C7 -/

/-- C7: for a payload whose kind is none of the nine handled values,
the delivery dispatch cannot raise (it is a total function) and falls
back to a plain text send: the delivered message carries the payload's
text when truthy, else the non-empty placeholder string, along with the
rebuilt reply markup and no attachment. -/
theorem c7_unknown_kind_fallback (p : Payload)
    (h : p.kind ∉ ["text", "photo", "video", "document", "sticker", "animation",
                   "audio", "voice", "video_note"]) :
    sendProtected p =
      { msgText := some (orDefault p.text "(unsupported kind treated as text)"),
        reply_markup := build_reply_markup p.buttons }
  ∧ (truthy p.text = true → (sendProtected p).msgText = p.text)
  ∧ (truthy p.text = false →
      (sendProtected p).msgText = some "(unsupported kind treated as text)")
  ∧ ∃ s, (sendProtected p).msgText = some s ∧ s.isEmpty = false := by
  simp only [List.mem_cons, List.mem_singleton, not_or] at h
  obtain ⟨h1, h2, h3, h4, h5, h6, h7, h8, h9, -⟩ := h
  have hsend : sendProtected p =
      { msgText := some (orDefault p.text "(unsupported kind treated as text)"),
        reply_markup := build_reply_markup p.buttons } := by
    simp [sendProtected, h1, h2, h3, h4, h5, h6, h7, h8, h9]
  refine ⟨hsend, ?_, ?_, ?_⟩
  · intro ht
    rw [hsend]
    cases hp : p.text with
    | none => simp [hp, truthy] at ht
    | some s =>
        rw [hp] at ht
        simp [truthy] at ht
        simp [orDefault, ht]
  · intro ht
    rw [hsend]
    cases hp : p.text with
    | none => simp [orDefault]
    | some s =>
        rw [hp] at ht
        simp [truthy] at ht
        simp [orDefault, ht]
  · refine ⟨orDefault p.text "(unsupported kind treated as text)", ?_, ?_⟩
    · rw [hsend]
    · cases hp : p.text with
      | none =>
          simp [orDefault]
          decide
      | some s =>
          by_cases hs : s.isEmpty
          · simp [orDefault, hs]
            decide
          · simp [orDefault, hs]

/-- C7, witnessed on an unrecognized kind with truthy text. -/
theorem c7_unknown_kind_fallback_witness :
    (sendProtected ⟨some "hello", none, "weird", none⟩).msgText = some "hello" := by
  have h := c7_unknown_kind_fallback ⟨some "hello", none, "weird", none⟩ (by decide)
  exact h.2.1 (by decide)

/-! ## Claim C8 -/

/-- C8 counterexample. The claim states that a delivery failure with a
rate-limit signal does not mark the job ERROR but sleeps and retries.
In the source the delivery loop's handler is `except Exception`
(main.py:456-461, user_bot.py:269-274): a `FloodWait` carrying wait 30
marks the claimed job ERROR, which is not READY_TO_SEND, so the job is
not retried. -/
theorem c8_counterexample :
    (finishDelivery claimedJob (SendOutcome.floodWait 30)).status = STATUS_ERROR
  ∧ STATUS_ERROR ≠ STATUS_READY_TO_SEND := by
  refine ⟨rfl, by decide⟩

/-- C8 (amended): the delivery loop treats a rate-limit signal like any
other failure, marking the claimed job ERROR with the signal's
description; the sleep-for-the-carried-wait handling exists in the
sources only in the `generate_session` command flow (main.py:233-236),
not in the send path. -/
theorem c8_amended (j : JobDoc) (w : Nat) :
    (finishDelivery j (SendOutcome.floodWait w)).status = STATUS_ERROR
  ∧ (finishDelivery j (SendOutcome.floodWait w)).error
      = some (outcomeDescr (SendOutcome.floodWait w))
  ∧ (finishDelivery j SendOutcome.ok).status = STATUS_COMPLETED :=
  ⟨rfl, rfl, rfl⟩

/-! ## Claim C9 -/

/-- C9: `get_config` returns the stored value after a successful
`set_config` of the key; it returns the default when the key was never
set; and it returns the default when the store raises on read. Being a
total function, it never propagates a failure. -/
theorem c9_get_config (s : ConfigStore) (key : String) (v : CVal)
    (d : Option CVal) :
    (s.failing = false →
      get_config (set_config s key v) key d = some v)
  ∧ (s.failing = false → s.docs.find? (fun dd => dd.key = key) = none →
      get_config s key d = d)
  ∧ (s.failing = true → get_config s key d = d) := by
  refine ⟨?_, ?_, ?_⟩
  · intro hf
    unfold set_config get_config configFindOne
    rw [hf]
    simp only [Bool.false_eq_true, if_false]
    cases hfind : s.docs.find? (fun dd => dd.key = key) with
    | none =>
        simp only [Option.isSome_none, Bool.false_eq_true, if_false]
        rw [find?_append_single s.docs key v hfind]
    | some dd0 =>
        simp only [Option.isSome_some, if_true]
        rw [find?_map_set s.docs key v dd0 hfind]
  · intro hf hn
    unfold get_config configFindOne
    rw [hf]
    simp only [Bool.false_eq_true, if_false]
    rw [hn]
  · intro hf
    unfold get_config configFindOne
    rw [hf]
    simp

/-- C9, witnessed: setting then reading `INBOX_GROUP_ID` on a reachable
empty store returns the stored chat id. -/
theorem c9_get_config_witness :
    get_config (set_config ⟨[], false⟩ "INBOX_GROUP_ID" (CVal.intV 77))
      "INBOX_GROUP_ID" none = some (CVal.intV 77) :=
  (c9_get_config ⟨[], false⟩ "INBOX_GROUP_ID" (CVal.intV 77) none).1 rfl

/-! ## Claim C10 -/

/-- C10: every encoded payload has a kind among the nine enumerated
values; it carries a `file_id` exactly when the kind is not `text`; and
it carries a `text` field exactly when the message has a truthy body or
caption, so a message with neither yields a payload without a text key. -/
theorem c10_payload_shape (m : Msg) :
    (extract_content m).kind ∈
      ["text", "photo", "video", "document", "sticker", "animation", "audio",
       "voice", "video_note"]
  ∧ ((extract_content m).file_id ≠ none ↔ (extract_content m).kind ≠ "text")
  ∧ ((extract_content m).text ≠ none ↔
      (truthy m.msgText || truthy m.caption) = true) := by
  have hk := ec_kf m
  have ht := ec_text m
  refine ⟨?_, ?_, ?_⟩
  · iterate 9 (all_goals try split at hk)
    all_goals simp_all [Prod.ext_iff]
  · iterate 9 (all_goals try split at hk)
    all_goals
      simp_all [Prod.ext_iff, Option.isSome_iff_exists, Option.ne_none_iff_isSome]
  · rw [ht, ← truthy_pyOr]
    by_cases h : truthy (pyOr m.msgText m.caption) = true
    · simp [h, truthy_ne_none h]
    · simp [h]
